import Mathlib

/-!
Shallow embedding of the Fake-News-Detection backend
(`backend/tempCodeRunnerFile.py`) and proofs about its
claim-extraction, evidence-aggregation, verdict-classification and
auth-store logic.

Python string primitives (`str.split`, `str.strip`, the `in` substring
test, `str.join`) are modelled on `List Char` exactly as CPython
behaves on ASCII inputs.
-/

namespace FakeNews

/-- The whitespace class used by Python's `str.split()` and `str.strip()`
(ASCII fragment: space, tab, newline, carriage return, vertical tab,
form feed). -/
def pyIsSpace (c : Char) : Bool :=
  c == ' ' || c == '\t' || c == '\n' || c == '\r' || c == '\x0b' || c == '\x0c'

/-- The character class stripped by `claim.strip(" .,")` in
`extract_main_claim`: space, dot, comma. -/
def isDotCommaSpace (c : Char) : Bool :=
  c == ' ' || c == '.' || c == ','

/-- Remove the longest prefix and the longest suffix of characters
satisfying `p` — the behaviour of Python's `str.strip(chars)` on the
character list. -/
def stripChars (p : Char → Bool) (l : List Char) : List Char :=
  ((l.dropWhile p).reverse.dropWhile p).reverse

/-- Python `s.strip(chars)` where `p` decides membership in `chars`. -/
def pyStrip (p : Char → Bool) (s : String) : String :=
  ⟨stripChars p s.data⟩

/-- Python `s.split()` (no argument): split on runs of whitespace,
discarding empty fields. -/
def pySplit (s : String) : List String :=
  ((s.data.splitOnP pyIsSpace).filter (fun w => !w.isEmpty)).map (fun w => (⟨w⟩ : String))

/-- Python substring test `needle in hay` at the character-list level:
some (contiguous) run of `hay` starts with `needle`. -/
def containsSub (needle : List Char) : List Char → Bool
  | [] => needle.isEmpty
  | c :: rest => needle.isPrefixOf (c :: rest) || containsSub needle rest

/-- Python `needle in hay` on strings. -/
def pyContains (hay needle : String) : Bool :=
  containsSub needle.data hay.data

/-- `extract_main_claim` from the source:
`words = text.split()`;
`claim = " ".join(words[:8]) if len(words) >= 3 else text`;
`return claim.strip(" .,")`. -/
def extract_main_claim (text : String) : String :=
  let words := pySplit text
  let claim := if 3 ≤ words.length then String.intercalate " " (words.take 8) else text
  pyStrip isDotCommaSpace claim

/-- Claim Extractor as the amended spec words it: messages with fewer
than 3 whitespace-separated words are returned stripped of leading and
trailing spaces, `.` and `,`; otherwise the first 8 words are joined by
single spaces and stripped the same way on both ends. -/
def specClaimExtract (text : String) : String :=
  if (pySplit text).length < 3 then pyStrip isDotCommaSpace text
  else pyStrip isDotCommaSpace (String.intercalate " " ((pySplit text).take 8))

/-- C3 counterexample: `",a b c"` has 3 whitespace-separated words and no
trailing `.` or `,`, so under the claim as stated (first 8 words joined,
trimmed of TRAILING `.` and `,` only) the extractor would return
`",a b c"` unchanged; the code also strips LEADING `.`/`,`/space and
returns `"a b c"`. -/
theorem extract_trailing_only_counterexample :
    (pySplit ",a b c").length = 3 ∧
    String.intercalate " " ((pySplit ",a b c").take 8) = ",a b c" ∧
    (",a b c" : String).data.getLast? = some 'c' ∧
    extract_main_claim ",a b c" = "a b c" ∧
    ("a b c" : String) ≠ ",a b c" := by
  refine ⟨rfl, rfl, rfl, rfl, ?_⟩
  decide

/-- C3 (amended): `extract_main_claim` is total; on fewer than 3 words it
returns the message stripped of leading/trailing spaces, `.` and `,`; on
3 or more words it returns the first 8 whitespace-separated words joined
by single spaces, stripped the same way on BOTH ends; the empty string
maps to the empty string. -/
theorem extract_main_claim_spec :
    (∀ text : String, extract_main_claim text = specClaimExtract text) ∧
    extract_main_claim "" = "" := by
  refine ⟨fun text => ?_, rfl⟩
  unfold extract_main_claim specClaimExtract
  by_cases h : (pySplit text).length < 3
  · simp only [if_pos h, if_neg (Nat.not_le.mpr h)]
  · simp only [if_neg h, if_pos (Nat.le_of_not_lt h)]

/-! ### Substring and strip lemmas -/

theorem containsSub_iff (needle hay : List Char) :
    containsSub needle hay = true ↔ needle <:+: hay := by
  induction hay with
  | nil =>
    simp [containsSub, List.isEmpty_iff, List.infix_nil]
  | cons c rest ih =>
    simp [containsSub, List.isPrefixOf_iff_prefix, ih, List.infix_cons_iff]

theorem pyContains_iff (hay needle : String) :
    pyContains hay needle = true ↔ needle.data <:+: hay.data :=
  containsSub_iff needle.data hay.data

theorem stripChars_infix_self (p : Char → Bool) (l : List Char) :
    stripChars p l <:+: l := by
  have h1 : List.dropWhile p l <:+ l := List.dropWhile_suffix p
  have h2 : List.dropWhile p (List.dropWhile p l).reverse <:+
      (List.dropWhile p l).reverse := List.dropWhile_suffix p
  have h3 : (List.dropWhile p (List.dropWhile p l).reverse).reverse <+:
      List.dropWhile p l :=
    List.reverse_suffix.mp (by simpa using h2)
  exact h3.isInfix.trans h1.isInfix

theorem infix_dropWhile_of_forall_not (p : Char → Bool) (l : List Char)
    (hne : l ≠ []) (hp : ∀ c ∈ l, p c = false) :
    ∀ a b : List Char, l <:+: List.dropWhile p (a ++ (l ++ b)) := by
  intro a b
  induction a with
  | nil =>
    cases l with
    | nil => exact absurd rfl hne
    | cons c l' =>
      rw [List.nil_append, List.cons_append,
        List.dropWhile_cons, hp c (List.mem_cons_self c l')]
      simpa [List.cons_append] using (List.prefix_append (c :: l') b).isInfix
  | cons x a' ih =>
    rw [List.cons_append, List.dropWhile_cons]
    cases hx : p x with
    | true => rw [if_pos rfl]; exact ih
    | false =>
      simp only [Bool.false_eq_true, if_false]
      refine List.infix_cons ?_
      rw [← List.append_assoc]
      exact List.infix_append a' l b

theorem infix_stripChars_of_forall_not (p : Char → Bool) (l s : List Char)
    (hne : l ≠ []) (hp : ∀ c ∈ l, p c = false) (h : l <:+: s) :
    l <:+: stripChars p s := by
  obtain ⟨a, t, hat⟩ := h
  have h1 : l <:+: List.dropWhile p s := by
    rw [← hat, List.append_assoc]
    exact infix_dropWhile_of_forall_not p l hne hp a t
  obtain ⟨a', t', hat'⟩ := List.reverse_infix.mpr h1
  have hne' : l.reverse ≠ [] := by simpa using hne
  have hp' : ∀ c ∈ l.reverse, p c = false := fun c hc => hp c (List.mem_reverse.mp hc)
  have h3 : l.reverse <:+: List.dropWhile p (List.dropWhile p s).reverse := by
    rw [← hat', List.append_assoc]
    exact infix_dropWhile_of_forall_not p l.reverse hne' hp' a' t'
  unfold stripChars
  exact List.reverse_infix.mp (by simpa using h3)

/-! ### Verdict classifier (`/predict`, lines 189–198) -/

/-- The three recognized verdict labels, in source order. -/
def labels : List String := ["FAKE", "REAL", "UNCERTAIN"]

/-- The fixed fallback message substituted when no label is found. -/
def fallbackResponse : String :=
  "UNCERTAIN: Model could not confidently classify based on current evidence. Please try a different claim."

/-- The label-presence normalization applied to the model reply:
`response = result.choices[0].message.content.strip()`; if no label is a
substring of `response`, it is replaced wholesale by the fallback. -/
def classify_response (content : String) : String :=
  let response := pyStrip pyIsSpace content
  if labels.any (fun label => pyContains response label) then response
  else fallbackResponse

theorem labels_facts :
    ∀ l ∈ labels, l.data ≠ [] ∧ ∀ c ∈ l.data, pyIsSpace c = false := by
  decide

/-- C1: a model reply containing none of the literal substrings `"FAKE"`,
`"REAL"`, `"UNCERTAIN"` is discarded and replaced by the exact fixed
fallback message; a reply containing at least one of them is returned
unchanged apart from whitespace trimming. -/
theorem classify_response_spec (reply : String) :
    (labels.all (fun label => !pyContains reply label) = true →
      classify_response reply = fallbackResponse) ∧
    (labels.any (fun label => pyContains reply label) = true →
      classify_response reply = pyStrip pyIsSpace reply) := by
  constructor
  · intro hnone
    have hnone' : ∀ label ∈ labels, pyContains reply label = false := by
      intro label hl
      simpa using List.all_eq_true.mp hnone label hl
    have hcond : (labels.any fun label => pyContains (pyStrip pyIsSpace reply) label) = false := by
      rw [List.any_eq_false]
      intro label hl hcont
      have h1 : label.data <:+: (pyStrip pyIsSpace reply).data :=
        (pyContains_iff _ _).mp hcont
      have h2 : label.data <:+: reply.data :=
        h1.trans (stripChars_infix_self pyIsSpace reply.data)
      have := (pyContains_iff reply label).mpr h2
      rw [hnone' label hl] at this
      exact Bool.false_ne_true this
    simp [classify_response, hcond]
  · intro hsome
    obtain ⟨label, hl, hcont⟩ := List.any_eq_true.mp hsome
    obtain ⟨hne, hnosp⟩ := labels_facts label hl
    have h1 : label.data <:+: reply.data := (pyContains_iff _ _).mp hcont
    have h2 : label.data <:+: stripChars pyIsSpace reply.data :=
      infix_stripChars_of_forall_not pyIsSpace label.data reply.data hne hnosp h1
    have hcond : (labels.any fun lab => pyContains (pyStrip pyIsSpace reply) lab) = true :=
      List.any_eq_true.mpr ⟨label, hl, (pyContains_iff _ _).mpr h2⟩
    simp [classify_response, hcond]

/-- C1 witness: a label-free reply gets the fallback; a reply containing
`"FAKE"` is returned whitespace-trimmed. -/
theorem classify_response_spec_witness :
    classify_response "no verdict here" = fallbackResponse ∧
    classify_response " FAKE: nope \n" = "FAKE: nope" :=
  ⟨(classify_response_spec "no verdict here").1 (by decide),
   ((classify_response_spec " FAKE: nope \n").2 (by decide)).trans (by decide)⟩

/-- C10: the label-presence check is case-sensitive plain substring
matching — a reply mentioning the labels only in lowercase contains none
of the literal substrings `"FAKE"`, `"REAL"`, `"UNCERTAIN"` and is
replaced wholesale by the fallback message. -/
theorem classify_case_sensitive :
    pyContains "fake: the claim is not real; verdict uncertain" "fake" = true ∧
    pyContains "fake: the claim is not real; verdict uncertain" "real" = true ∧
    pyContains "fake: the claim is not real; verdict uncertain" "uncertain" = true ∧
    (labels.all fun label =>
      !pyContains "fake: the claim is not real; verdict uncertain" label) = true ∧
    classify_response "fake: the claim is not real; verdict uncertain" = fallbackResponse := by
  refine ⟨by decide, by decide, by decide, by decide, ?_⟩
  rfl

/-! ### Evidence fetchers (lines 84–138)

Each fetcher makes one `requests.get` call inside a `try` block; we model
the outcome of that call explicitly: either the call (or JSON decoding)
raised, or it returned a status code with a decoded payload. -/

/-- Parsed body of the Wikipedia summary endpoint: the optional
`"extract"` field. -/
structure WikiPayload where
  extract : Option String
deriving DecidableEq

/-- One article object of a news API response: optional `"title"` and
`"description"` fields. -/
structure NewsArticle where
  title : Option String
  description : Option String
deriving DecidableEq

/-- Parsed body of a news API response: the optional `"articles"` list. -/
structure NewsPayload where
  articles : Option (List NewsArticle)
deriving DecidableEq

/-- Outcome of the single outbound HTTP call of a fetcher: the request
(or JSON decoding of its body) raised, or an HTTP response arrived with
the given status code and decoded payload (`none` = body not decodable). -/
inductive FetchOutcome (π : Type) where
  | raised : FetchOutcome π
  | response (status : Nat) (json : Option π) : FetchOutcome π
deriving DecidableEq

/-- `fetch_wikipedia_summary`: on status 200 return `data.get("extract", "")`;
on any failure return `""`. -/
def fetch_wikipedia_summary (query : String) (o : FetchOutcome WikiPayload) : String :=
  match query, o with
  | _, .raised => ""
  | _, .response status json =>
    if status = 200 then
      match json with
      | some data => data.extract.getD ""
      | none => ""
    else ""

/-- One `f"{title}: {desc}"` snippet. -/
def articleSnippet (a : NewsArticle) : String :=
  a.title.getD "" ++ ": " ++ a.description.getD ""

/-- `fetch_newsapi_headlines`: on status 200, if `"articles"` is present
and non-empty, join the snippets with newlines; otherwise (and on any
failure) return `""`. -/
def fetch_newsapi_headlines (query : String) (o : FetchOutcome NewsPayload) : String :=
  match query, o with
  | _, .raised => ""
  | _, .response status json =>
    if status = 200 then
      match json with
      | some data =>
        match data.articles with
        | some arts =>
          if arts ≠ [] then String.intercalate "\n" (arts.map articleSnippet) else ""
        | none => ""
      | none => ""
    else ""

/-- `fetch_gnews_headlines`: on status 200, join the snippets of
`data.get("articles", [])` with newlines; on any failure return `""`. -/
def fetch_gnews_headlines (query : String) (o : FetchOutcome NewsPayload) : String :=
  match query, o with
  | _, .raised => ""
  | _, .response status json =>
    if status = 200 then
      match json with
      | some data => String.intercalate "\n" ((data.articles.getD []).map articleSnippet)
      | none => ""
    else ""

/-- `fetch_factchecker_rss`: documented placeholder, returns `""` for
every input. -/
def fetch_factchecker_rss (query : String) : String :=
  match query with
  | _ => ""

/-- C5: each implemented fetcher is total over all query strings and all
HTTP outcomes; on a raised request, a non-200 status, or an undecodable
payload it returns the empty string; the fact-checker stub returns the
empty string for every input. -/
theorem fetchers_absorb_failures (query : String) (status : Nat)
    (jw : Option WikiPayload) (jn jg : Option NewsPayload) :
    fetch_wikipedia_summary query .raised = "" ∧
    fetch_newsapi_headlines query .raised = "" ∧
    fetch_gnews_headlines query .raised = "" ∧
    (status ≠ 200 →
      fetch_wikipedia_summary query (.response status jw) = "" ∧
      fetch_newsapi_headlines query (.response status jn) = "" ∧
      fetch_gnews_headlines query (.response status jg) = "") ∧
    fetch_wikipedia_summary query (.response status none) = "" ∧
    fetch_newsapi_headlines query (.response status none) = "" ∧
    fetch_gnews_headlines query (.response status none) = "" ∧
    fetch_factchecker_rss query = "" := by
  refine ⟨rfl, rfl, rfl,
    fun h => ⟨?_, ?_, ?_⟩, ?_, ?_, ?_, rfl⟩
  · simp [fetch_wikipedia_summary, h]
  · simp [fetch_newsapi_headlines, h]
  · simp [fetch_gnews_headlines, h]
  · by_cases h : status = 200 <;> simp [fetch_wikipedia_summary, h]
  · by_cases h : status = 200 <;> simp [fetch_newsapi_headlines, h]
  · by_cases h : status = 200 <;> simp [fetch_gnews_headlines, h]

/-- C5 witness: a 404 response with a well-formed payload yields `""`
from all three implemented fetchers, and the stub yields `""`. -/
theorem fetchers_absorb_failures_witness :
    fetch_wikipedia_summary "x" (.response 404 (some ⟨some "ev"⟩)) = "" ∧
    fetch_newsapi_headlines "x" (.response 404 (some ⟨some [⟨some "t", some "d"⟩]⟩)) = "" ∧
    fetch_gnews_headlines "x" (.response 404 (some ⟨some [⟨some "t", some "d"⟩]⟩)) = "" ∧
    fetch_factchecker_rss "x" = "" := by
  have h := fetchers_absorb_failures "x" 404
    (some ⟨some "ev"⟩) (some ⟨some [⟨some "t", some "d"⟩]⟩) (some ⟨some [⟨some "t", some "d"⟩]⟩)
  obtain ⟨-, -, -, h404, -, -, -, hstub⟩ := h
  obtain ⟨h1, h2, h3⟩ := h404 (by decide)
  exact ⟨h1, h2, h3, hstub⟩

/-! ### Evidence aggregation (lines 159–163) -/

/-- The fixed fallback sentence used when no evidence was gathered. -/
def evidenceFallback : String :=
  "No relevant evidence found in Wikipedia, news, or fact-checking sources."

/-- `"\n".join(part for part in all_evidence_parts if part).strip()`,
then the falsy-string fallback. -/
def aggregate_evidence (parts : List String) : String :=
  let all_evidence :=
    pyStrip pyIsSpace (String.intercalate "\n" (parts.filter (fun part => !(part == ""))))
  if all_evidence = "" then evidenceFallback else all_evidence

/-- The aggregation the spec describes before the final strip: the
newline-join of the non-empty entries in source order. -/
def specJoin (parts : List String) : String :=
  String.intercalate "\n" (parts.filter (fun part => !(part == "")))

/-- C4 counterexample: for the fetcher outputs `(" ", "", "", "")` — not
all empty — the claim as stated says the aggregated evidence equals the
newline-joined non-empty entries, i.e. `" "`; the code strips the join,
finds it falsy and substitutes the fallback sentence instead. -/
theorem aggregate_whitespace_counterexample :
    ((" " : String) ≠ "") ∧
    specJoin [" ", "", "", ""] = " " ∧
    aggregate_evidence [" ", "", "", ""] = evidenceFallback ∧
    evidenceFallback ≠ " " := by
  refine ⟨by decide, rfl, rfl, by decide⟩

/-- C4 (amended): if all four fetcher outputs are empty the aggregated
evidence is the fixed fallback sentence; otherwise it is the
newline-joined non-empty entries in fixed source order, stripped of
leading/trailing whitespace — with the fallback substituted in the
degenerate case where that stripped join is itself empty (all non-empty
entries whitespace-only). -/
theorem aggregate_evidence_spec (e n₁ n₂ f : String) :
    (e = "" ∧ n₁ = "" ∧ n₂ = "" ∧ f = "" →
      aggregate_evidence [e, n₁, n₂, f] = evidenceFallback) ∧
    (pyStrip pyIsSpace (specJoin [e, n₁, n₂, f]) ≠ "" →
      aggregate_evidence [e, n₁, n₂, f] = pyStrip pyIsSpace (specJoin [e, n₁, n₂, f])) ∧
    (pyStrip pyIsSpace (specJoin [e, n₁, n₂, f]) = "" →
      aggregate_evidence [e, n₁, n₂, f] = evidenceFallback) := by
  refine ⟨?_, ?_, ?_⟩
  · rintro ⟨rfl, rfl, rfl, rfl⟩
    rfl
  · intro h
    simp [aggregate_evidence, specJoin] at h ⊢
    intro hcontra
    exact absurd hcontra h
  · intro h
    simp [aggregate_evidence, specJoin] at h ⊢
    intro hcontra
    exact absurd h hcontra

/-- C4 witness: one non-empty slot propagates stripped; all-empty slots
produce the fallback sentence. -/
theorem aggregate_evidence_spec_witness :
    aggregate_evidence ["wiki says so", "", "", ""] = "wiki says so" ∧
    aggregate_evidence ["", "", "", ""] = evidenceFallback :=
  ⟨((aggregate_evidence_spec "wiki says so" "" "" "").2.1 (by decide)).trans (by decide),
   (aggregate_evidence_spec "" "" "" "").1 ⟨rfl, rfl, rfl, rfl⟩⟩

/-! ### The `/predict` pipeline (lines 147–201) -/

/-- The fixed system prompt template (lines 166–177). -/
def compose_system_prompt (message evidence : String) : String :=
  "You are a professional fake news detection assistant. " ++
  "Analyze the user\x27s statement and evidence from MULTIPLE sources below. " ++
  "Base your conclusion on both external evidence and your internal knowledge.\n" ++
  "Reply in steps:\n" ++
  "Step 1: Restate the main claim.\n" ++
  "Step 2: Compare it with evidence from Wikipedia and news sources.\n" ++
  "Step 3: Classify as FAKE, REAL, or UNCERTAIN, and provide a one-line, evidence-based reason.\n" ++
  "If evidence is insufficient or ambiguous, reply UNCERTAIN.\n" ++
  "User\x27s message: " ++ message ++ "\n" ++
  "Multi-source evidence: " ++ evidence

/-- A FastAPI `HTTPException(status_code, detail)`. -/
structure HTTPFailure where
  status_code : Nat
  detail : String
deriving DecidableEq

/-- The external effects one `/predict` request can observe: the outcome
of each fetcher\x27s HTTP call, and the outcome of the chat-completion call
as a function of the two messages sent (`.error m` = the call raised an
exception whose message text is `m`; this also covers a malformed
provider response, whose field access raises before any reply string
exists). -/
structure World where
  wiki : FetchOutcome WikiPayload
  newsapi : FetchOutcome NewsPayload
  gnews : FetchOutcome NewsPayload
  llm : String → String → Except String String

/-- Evidence retrieval and aggregation exactly as the handler performs
them, in fixed source order (lines 153–163). -/
def gather_evidence (w : World) (claim : String) : String :=
  aggregate_evidence
    [fetch_wikipedia_summary claim w.wiki,
     fetch_newsapi_headlines claim w.newsapi,
     fetch_gnews_headlines claim w.gnews,
     fetch_factchecker_rss claim]

/-- The `/predict` handler: extract the claim, gather evidence, compose
the prompt, call the model; an exception anywhere in the call is caught
at the request boundary and surfaced as HTTP 500, otherwise the reply is
normalized by the label-presence check. -/
def predict (w : World) (message : String) : Except HTTPFailure String :=
  let claim := extract_main_claim message
  let all_evidence := gather_evidence w claim
  let system_prompt := compose_system_prompt message all_evidence
  match w.llm system_prompt message with
  | .error e => .error ⟨500, "Error generating response: " ++ e⟩
  | .ok content => .ok (classify_response content)

/-- Every classifier output contains a recognized label: either the
reply passed the check, or the fallback (which contains `"UNCERTAIN"`)
was substituted. -/
theorem classify_response_has_label (content : String) :
    (labels.any fun label => pyContains (classify_response content) label) = true := by
  by_cases h : (labels.any fun label => pyContains (pyStrip pyIsSpace content) label) = true
  · simp [classify_response, h]
  · simp only [classify_response, if_neg h]
    decide

/-- C2: every successful (HTTP 200) `/predict` response contains at
least one of the labels `"FAKE"`, `"REAL"`, `"UNCERTAIN"`; and whenever
the model call returns a reply — classifiable or not — the handler
answers with success and the normalized reply, never with an error. -/
theorem predict_ok_contains_label (w : World) (message : String) :
    (∀ response, predict w message = .ok response →
      (labels.any fun label => pyContains response label) = true) ∧
    (∀ content, w.llm (compose_system_prompt message
        (gather_evidence w (extract_main_claim message))) message = .ok content →
      predict w message = .ok (classify_response content)) := by
  constructor
  · intro response h
    simp only [predict] at h
    cases hllm : w.llm (compose_system_prompt message
        (gather_evidence w (extract_main_claim message))) message with
    | error e =>
      rw [hllm] at h
      simp at h
    | ok content =>
      rw [hllm] at h
      simp only [Except.ok.injEq] at h
      rw [← h]
      exact classify_response_has_label content
  · intro content h
    simp only [predict]
    rw [h]

/-- A world in which every fetcher call fails and the model call has a
fixed outcome. -/
def constWorld (r : Except String String) : World :=
  ⟨.raised, .raised, .raised, fun _ _ => r⟩

/-- C2 witness: a concrete successful request whose response carries a
label, and a concrete unclassifiable reply that is still answered with
success. -/
theorem predict_ok_contains_label_witness :
    (labels.any fun label => pyContains "REAL: verified." label) = true ∧
    predict (constWorld (.ok "no labels at all")) "hi" =
      .ok (classify_response "no labels at all") :=
  ⟨(predict_ok_contains_label (constWorld (.ok " REAL: verified. ")) "hi").1
      "REAL: verified." (by rfl),
   (predict_ok_contains_label (constWorld (.ok "no labels at all")) "hi").2
      "no labels at all" rfl⟩

/-- C9: whenever the chat-completion call made by the handler raises
with message text `m`, the handler returns HTTP 500 with detail exactly
`"Error generating response: " ++ m`, with no retry and no further
classification. -/
theorem predict_error_spec (w : World) (message m : String)
    (h : w.llm (compose_system_prompt message
      (gather_evidence w (extract_main_claim message))) message = .error m) :
    predict w message = .error ⟨500, "Error generating response: " ++ m⟩ := by
  simp only [predict]
  rw [h]

/-- C9 witness: a world whose model call raises with message `"boom"`. -/
theorem predict_error_spec_witness :
    predict (constWorld (.error "boom")) "hello" =
      .error ⟨500, "Error generating response: " ++ "boom"⟩ :=
  predict_error_spec (constWorld (.error "boom")) "hello" "boom" rfl

/-! ### SHA-256 (`hashlib.sha256(password.encode()).hexdigest()`)

Executable FIPS-180-4 SHA-256 over byte lists, words as `Nat` reduced
mod `2^32`; validated below against the standard test vector. -/

def add32 (a b : Nat) : Nat := (a + b) % 4294967296

def rotr32 (n x : Nat) : Nat := (x >>> n) ||| ((x <<< (32 - n)) % 4294967296)

def not32 (x : Nat) : Nat := x ^^^ 4294967295

def bsig0 (x : Nat) : Nat := rotr32 2 x ^^^ rotr32 13 x ^^^ rotr32 22 x

def bsig1 (x : Nat) : Nat := rotr32 6 x ^^^ rotr32 11 x ^^^ rotr32 25 x

def ssig0 (x : Nat) : Nat := rotr32 7 x ^^^ rotr32 18 x ^^^ (x >>> 3)

def ssig1 (x : Nat) : Nat := rotr32 17 x ^^^ rotr32 19 x ^^^ (x >>> 10)

def chF (x y z : Nat) : Nat := (x &&& y) ^^^ (not32 x &&& z)

def majF (x y z : Nat) : Nat := (x &&& y) ^^^ (x &&& z) ^^^ (y &&& z)

/-- The 64 SHA-256 round constants, eight rows of eight. -/
def K256 : List Nat :=
  [0x428a2f98, 0x71374491, 0xb5c0fbcf, 0xe9b5dba5, 0x3956c25b, 0x59f111f1, 0x923f82a4, 0xab1c5ed5] ++
  [0xd807aa98, 0x12835b01, 0x243185be, 0x550c7dc3, 0x72be5d74, 0x80deb1fe, 0x9bdc06a7, 0xc19bf174] ++
  [0xe49b69c1, 0xefbe4786, 0x0fc19dc6, 0x240ca1cc, 0x2de92c6f, 0x4a7484aa, 0x5cb0a9dc, 0x76f988da] ++
  [0x983e5152, 0xa831c66d, 0xb00327c8, 0xbf597fc7, 0xc6e00bf3, 0xd5a79147, 0x06ca6351, 0x14292967] ++
  [0x27b70a85, 0x2e1b2138, 0x4d2c6dfc, 0x53380d13, 0x650a7354, 0x766a0abb, 0x81c2c92e, 0x92722c85] ++
  [0xa2bfe8a1, 0xa81a664b, 0xc24b8b70, 0xc76c51a3, 0xd192e819, 0xd6990624, 0xf40e3585, 0x106aa070] ++
  [0x19a4c116, 0x1e376c08, 0x2748774c, 0x34b0bcb5, 0x391c0cb3, 0x4ed8aa4a, 0x5b9cca4f, 0x682e6ff3] ++
  [0x748f82ee, 0x78a5636f, 0x84c87814, 0x8cc70208, 0x90befffa, 0xa4506ceb, 0xbef9a3f7, 0xc67178f2]

/-- The SHA-256 initial hash value. -/
def H256 : List Nat :=
  [0x6a09e667, 0xbb67ae85, 0x3c6ef372, 0xa54ff53a, 0x510e527f, 0x9b05688c, 0x1f83d9ab, 0x5be0cd19]

/-- Extend a 16-word block to the 64-word message schedule. -/
def extendSchedule (w16 : List Nat) : List Nat :=
  (List.range 48).foldl
    (fun w _ =>
      let i := w.length
      w ++ [add32 (add32 (ssig1 (w.getD (i - 2) 0)) (w.getD (i - 7) 0))
              (add32 (ssig0 (w.getD (i - 15) 0)) (w.getD (i - 16) 0))])
    w16

/-- One round of the SHA-256 compression function on the 8-word state. -/
def compressStep (st : List Nat) (kw : Nat × Nat) : List Nat :=
  match st with
  | [a, b, c, d, e, f, g, h] =>
    let t1 := add32 h (add32 (bsig1 e) (add32 (chF e f g) (add32 kw.1 kw.2)))
    let t2 := add32 (bsig0 a) (majF a b c)
    [add32 t1 t2, a, b, c, add32 d t1, e, f, g]
  | st => st

def processBlock (h : List Nat) (block : List Nat) : List Nat :=
  let w := extendSchedule block
  let st := (K256.zip w).foldl compressStep h
  (h.zip st).map (fun p => add32 p.1 p.2)

/-- Big-endian 8-byte encoding of the bit length. -/
def be64 (n : Nat) : List Nat :=
  (List.range 8).map (fun i => (n >>> ((7 - i) * 8)) % 256)

/-- SHA-256 padding: `0x80`, zeros to 56 mod 64, 64-bit bit length. -/
def padMessage (msg : List Nat) : List Nat :=
  let len := msg.length
  let zeros := (120 - ((len + 1) % 64)) % 64
  msg ++ [0x80] ++ List.replicate zeros 0 ++ be64 (len * 8)

/-- Assemble big-endian 32-bit words from bytes. -/
def bytesToWords : List Nat → List Nat
  | b0 :: b1 :: b2 :: b3 :: rest => (((b0 * 256 + b1) * 256 + b2) * 256 + b3) :: bytesToWords rest
  | _ => []

/-- The SHA-256 digest of a byte string, as 8 words. -/
def sha256Bytes (msg : List Nat) : List Nat :=
  let ws := bytesToWords (padMessage msg)
  (List.range (ws.length / 16)).foldl
    (fun h i => processBlock h ((ws.drop (16 * i)).take 16)) H256

def hexDigit (n : Nat) : Char :=
  "0123456789abcdef".data.getD n '0'

def hexWord (w : Nat) : List Char :=
  (List.range 8).map (fun i => hexDigit ((w >>> ((7 - i) * 4)) % 16))

/-- Lowercase hex rendering of the 8-word digest (`hexdigest()`). -/
def hexdigest (ws : List Nat) : String :=
  ⟨(ws.map hexWord).flatten⟩

/-- UTF-8 encoding of one code point (`str.encode()`). -/
def utf8Bytes (c : Char) : List Nat :=
  let n := c.toNat
  if n < 128 then [n]
  else if n < 2048 then [192 ||| (n >>> 6), 128 ||| (n &&& 63)]
  else if n < 65536 then
    [224 ||| (n >>> 12), 128 ||| ((n >>> 6) &&& 63), 128 ||| (n &&& 63)]
  else
    [240 ||| (n >>> 18), 128 ||| ((n >>> 12) &&& 63),
     128 ||| ((n >>> 6) &&& 63), 128 ||| (n &&& 63)]

def strBytes (s : String) : List Nat :=
  (s.data.map utf8Bytes).flatten

/-- `hash_password` from the source:
`hashlib.sha256(password.encode()).hexdigest()`. -/
def hash_password (password : String) : String :=
  hexdigest (sha256Bytes (strBytes password))

/-- FIPS-180-4 test vector, checked by kernel evaluation: the embedding
of `hash_password` agrees with `hashlib.sha256` on `"abc"`. -/
theorem hash_password_abc :
    hash_password "abc" =
      "ba7816bf8f01cfea414140de5dae2223b00361a396177a9cb410ff61f20015ad" := by
  rfl

/-! ### Auth store (`users` table, `/signup`, `/login`; lines 30–67) -/

/-- One row of `users(id, name, email UNIQUE, password_hash)`. -/
structure UserRow where
  id : Nat
  name : String
  email : String
  password_hash : String
deriving DecidableEq

/-- `/signup`: a transactional insert-or-fail against the `UNIQUE`
constraint on `email`; the `sqlite3.IntegrityError` is mapped to
HTTP 400 and the store is unchanged. Returns the response and the
resulting store. -/
def signup (db : List UserRow) (name email password : String) :
    Except HTTPFailure Bool × List UserRow :=
  if db.any (fun u => u.email == email) then
    (.error ⟨400, "Email already exists"⟩, db)
  else
    (.ok true, db ++ [⟨db.length + 1, name, email, hash_password password⟩])

/-- `/login`: select a row matching both email and password hash;
success iff one exists, else HTTP 401. -/
def login (db : List UserRow) (email password : String) : Except HTTPFailure Bool :=
  let hashed := hash_password password
  match db.find? (fun u => u.email == email && u.password_hash == hashed) with
  | some _ => .ok true
  | none => .error ⟨401, "Invalid credentials"⟩

theorem signup_insert_eq (db : List UserRow) (name email password : String)
    (h : db.any (fun u => u.email == email) = false) :
    signup db name email password =
      (.ok true, db ++ [⟨db.length + 1, name, email, hash_password password⟩]) := by
  simp [signup, h]

/-- C6: login succeeds iff some record matches both the email and the
hash of the password exactly, and every request gets either that success
or the one fixed 401 `"Invalid credentials"` error (identical for wrong
password and unknown email). -/
theorem login_spec (db : List UserRow) (email password : String) :
    (login db email password = .ok true ↔
      ∃ u ∈ db, u.email = email ∧ u.password_hash = hash_password password) ∧
    (login db email password = .ok true ∨
      login db email password = .error ⟨401, "Invalid credentials"⟩) := by
  constructor
  · constructor
    · intro h
      simp only [login] at h
      cases hf : db.find? (fun u => u.email == email && u.password_hash == hash_password password) with
      | none => rw [hf] at h; simp at h
      | some u =>
        have hm := List.mem_of_find?_eq_some hf
        have hp := List.find?_some hf
        simp only [Bool.and_eq_true, beq_iff_eq] at hp
        exact ⟨u, hm, hp.1, hp.2⟩
    · rintro ⟨u, hu, he, hh⟩
      simp only [login]
      cases hf : db.find? (fun u => u.email == email && u.password_hash == hash_password password) with
      | some v => rfl
      | none =>
        rw [List.find?_eq_none] at hf
        exact absurd (show (u.email == email && u.password_hash == hash_password password) = true
          by simp [he, hh]) (hf u hu)
  · simp only [login]
    cases hf : db.find? (fun u => u.email == email && u.password_hash == hash_password password) with
    | none => right; rfl
    | some u => left; rfl

/-- C6 witness: the matching record logs in. -/
theorem login_spec_witness :
    login [⟨1, "n", "u@x", hash_password "pw"⟩] "u@x" "pw" = .ok true :=
  (login_spec [⟨1, "n", "u@x", hash_password "pw"⟩] "u@x" "pw").1.mpr
    ⟨⟨1, "n", "u@x", hash_password "pw"⟩, by simp, rfl, rfl⟩

/-- C7: signup inserts exactly one row and succeeds when the email is
free; when the email already exists it fails with the fixed 400
`"Email already exists"` error and leaves the store unchanged, whatever
the name and password; email uniqueness is preserved. -/
theorem signup_spec (db : List UserRow) (name email password : String) :
    ((∀ u ∈ db, u.email ≠ email) →
      signup db name email password =
        (.ok true, db ++ [⟨db.length + 1, name, email, hash_password password⟩])) ∧
    ((∃ u ∈ db, u.email = email) →
      signup db name email password = (.error ⟨400, "Email already exists"⟩, db)) ∧
    ((db.map (fun u => u.email)).Nodup →
      ((signup db name email password).2.map (fun u => u.email)).Nodup) := by
  refine ⟨?_, ?_, ?_⟩
  · intro h
    refine signup_insert_eq db name email password ?_
    rw [List.any_eq_false]
    intro u hu
    simpa using h u hu
  · rintro ⟨u, hu, he⟩
    have hc : db.any (fun u => u.email == email) = true :=
      List.any_eq_true.mpr ⟨u, hu, by simp [he]⟩
    simp [signup, hc]
  · intro hnd
    by_cases hc : db.any (fun u => u.email == email) = true
    · simpa [signup, hc] using hnd
    · have hfalse : db.any (fun u => u.email == email) = false := by simpa using hc
      rw [signup_insert_eq db name email password hfalse]
      rw [List.map_append]
      refine List.nodup_append.mpr ⟨hnd, List.nodup_singleton _, ?_⟩
      intro x hx hx2
      obtain ⟨u, hu, hux⟩ := List.mem_map.mp hx
      simp only [List.map_cons, List.map_nil, List.mem_singleton] at hx2
      have := List.any_eq_false.mp hfalse u hu
      simp [hux, hx2] at this

/-- C7 witness: inserting a fresh email succeeds; re-inserting the same
email with a different name and password is rejected and the store is
unchanged. -/
theorem signup_spec_witness :
    signup [] "n" "e@x" "pw" = (.ok true, [⟨1, "n", "e@x", hash_password "pw"⟩]) ∧
    signup [⟨1, "n", "e@x", hash_password "pw"⟩] "m" "e@x" "other" =
      (.error ⟨400, "Email already exists"⟩, [⟨1, "n", "e@x", hash_password "pw"⟩]) :=
  ⟨(signup_spec [] "n" "e@x" "pw").1 (by simp),
   (signup_spec [⟨1, "n", "e@x", hash_password "pw"⟩] "m" "e@x" "other").2.1
     ⟨⟨1, "n", "e@x", hash_password "pw"⟩, by simp, rfl⟩⟩

/-- The password hash stored by the most recent insertion. -/
def lastStoredHash (db : List UserRow) : Option String :=
  db.getLast?.map (fun u => u.password_hash)

/-- C8 counterexample: two signups with the same plaintext password (and
distinct emails) store the IDENTICAL password hash — the hashing has no
per-record salt, contradicting the claim that the stored hashes differ. -/
theorem unsalted_hash_counterexample :
    ((signup ((signup [] "alice" "a@x" "hunter2").2) "bob" "b@x" "hunter2").2.map
      (fun u => u.password_hash)) =
      [hash_password "hunter2", hash_password "hunter2"] ∧
    ("a@x" : String) ≠ "b@x" := by
  refine ⟨rfl, by decide⟩

/-- C8 (amended): `hash_password` is an unsalted deterministic SHA-256
hex digest of the plaintext alone, so any two successful signups with
the same password — whatever the stores, names and emails — store
exactly the same hash. -/
theorem signup_hash_deterministic (password : String)
    (db₁ db₂ : List UserRow) (n₁ e₁ n₂ e₂ : String)
    (h₁ : db₁.any (fun u => u.email == e₁) = false)
    (h₂ : db₂.any (fun u => u.email == e₂) = false) :
    lastStoredHash (signup db₁ n₁ e₁ password).2 = some (hash_password password) ∧
    lastStoredHash (signup db₂ n₂ e₂ password).2 =
      lastStoredHash (signup db₁ n₁ e₁ password).2 := by
  rw [signup_insert_eq db₁ n₁ e₁ password h₁, signup_insert_eq db₂ n₂ e₂ password h₂]
  constructor <;> simp [lastStoredHash, List.getLast?_concat]

/-- C8 amended-claim witness: two concrete signups of `"pw"` into
different stores under different identities store the same hash. -/
theorem signup_hash_deterministic_witness :
    lastStoredHash (signup [] "alice" "a@x" "pw").2 = some (hash_password "pw") ∧
    lastStoredHash (signup [⟨1, "c", "c@x", hash_password "zz"⟩] "bob" "b@x" "pw").2 =
      lastStoredHash (signup [] "alice" "a@x" "pw").2 :=
  signup_hash_deterministic "pw" [] [⟨1, "c", "c@x", hash_password "zz"⟩]
    "alice" "a@x" "bob" "b@x" rfl rfl

end FakeNews
